import Mathlib

/-!
Verification of the HyperSpace core (`src/hyperspace/space/mapping_space.py`):
dimension-descriptor normalization (`check_dimension`), the combinatorial
folding algorithm (`fold_spaces`), and the build pipeline
(`create_hyperspace`).  Python values and the dynamic `isinstance` dispatch
are embedded by a small inductive type of scalar values; machine behaviour
relevant to the claims (bool being a subtype of int, `&` truthiness, list
`insert` semantics) is modelled faithfully.
-/

namespace HyperSpace

/-- Python scalar values as they occur in descriptor tuples: ints, floats
(carried as rationals; only their identity matters here, never rounding),
strings, booleans and `None`. -/
inductive PyVal where
  | intV (n : Int)
  | floatV (q : ℚ)
  | strV (s : String)
  | boolV (b : Bool)
  | noneV
deriving DecidableEq

instance : Inhabited PyVal := ⟨PyVal.noneV⟩

/-- `isinstance(d, (str, bool))` -/
def isStrOrBool : PyVal → Bool
  | .strV _ => true
  | .boolV _ => true
  | _ => false

/-- `isinstance(d, numbers.Integral)`; Python `bool` is a subclass of `int`. -/
def isIntegral : PyVal → Bool
  | .intV _ => true
  | .boolV _ => true
  | _ => false

/-- `isinstance(d, numbers.Real)`; ints and bools are `numbers.Real` in Python. -/
def isRealNumber : PyVal → Bool
  | .intV _ => true
  | .floatV _ => true
  | .boolV _ => true
  | _ => false

/-- `isinstance(d, (float, int))`; Python `bool` is a subclass of `int`. -/
def isFloatOrInt : PyVal → Bool
  | .intV _ => true
  | .floatV _ => true
  | .boolV _ => true
  | _ => false

/-- The `SpaceType` enum of `mapping_space.py`. -/
inductive SpaceType where
  | INTEGER
  | REAL
  | CATEGORICAL
deriving DecidableEq

/-- Which part of the original domain a produced dimension covers: the lower
half, the upper half, or (for pass-through / degenerate dimensions) the full
domain. -/
inductive Half where
  | lowHalf
  | highHalf
  | full
deriving DecidableEq

/-- A typed dimension object (skopt `Dimension` subclass instance).  Numeric
bound values are abstracted by the `half` tag, which records which half of the
original domain the dimension covers; `prior` holds the prior argument for
REAL dimensions, `categories` the category list for CATEGORICAL ones. -/
structure SkDim where
  kind : SpaceType
  half : Half
  prior : Option PyVal
  categories : List PyVal
  transform : Option String
deriving DecidableEq

instance : Inhabited SkDim := ⟨⟨SpaceType.INTEGER, Half.full, none, [], none⟩⟩

/-- Errors raised by the core, represented structurally: each constructor
carries exactly the data interpolated into the corresponding Python message.
`notListOrTuple` is `ValueError("Dimension has to be a list or tuple.")`;
`invalidDimension` is `ValueError("Invalid dimension {} ...")` with the
offending descriptor; `lengthMismatch` is the `fold_spaces` ValueError with
the two lengths; `cannotUnpack` is the TypeError Python raises when
`create_hyperspace` unpacks `low, high = check_dimension(hparam)` and the
result is a bare `Dimension` instance rather than a pair. -/
inductive PyError where
  | notListOrTuple
  | invalidDimension (descriptor : List PyVal)
  | lengthMismatch (lowLen highLen : Nat)
  | cannotUnpack
deriving DecidableEq

/-- Result of `check_dimension`: either the input `Dimension` passed through
unchanged, or the `(low, high)` pair returned by a `get_hyperspace` call. -/
inductive CheckResult where
  | single (d : SkDim)
  | pair (low high : SkDim)
deriving DecidableEq

/-- A descriptor argument to `check_dimension`: an existing `Dimension`
instance, a list/tuple/ndarray of scalar values, or anything else (which the
code rejects as not a list or tuple). -/
inductive PyDescriptor where
  | dim (d : SkDim)
  | raw (xs : List PyVal)
  | scalar
deriving DecidableEq

/-- Modelled from the spec: `HyperInteger(lower, upper, transform).get_hyperspace()`
from `src/hyperspace/space/space.py`, which is missing from `src/`.  Per spec
§4.2 it returns an ordered pair of INTEGER dimensions covering the lower and
upper half of the domain, with transform copied unchanged onto both halves;
the integer midpoint arithmetic is abstracted by the `half` tag since no
claim observes bound values. -/
def hyperIntegerHyperspace (lower upper : PyVal) (transform : Option String) :
    SkDim × SkDim :=
  (⟨SpaceType.INTEGER, Half.lowHalf, none, [], transform⟩,
   ⟨SpaceType.INTEGER, Half.highHalf, none, [], transform⟩)

/-- Modelled from the spec: `HyperReal(lower, upper, prior, transform).get_hyperspace()`
from the missing `src/hyperspace/space/space.py`.  Per spec §4.2 it returns a
pair of REAL dimensions covering the lower and upper half, with prior and
transform copied unchanged onto both halves. -/
def hyperRealHyperspace (lower upper : PyVal) (prior : Option PyVal)
    (transform : Option String) : SkDim × SkDim :=
  (⟨SpaceType.REAL, Half.lowHalf, prior, [], transform⟩,
   ⟨SpaceType.REAL, Half.highHalf, prior, [], transform⟩)

/-- Modelled from the spec: `HyperCategorical(categories, transform).get_hyperspace()`
from the missing `src/hyperspace/space/space.py`.  Per spec §4.2 the category
sequence is partitioned into two non-empty order-preserving sub-sequences
(first half / second half by position); with fewer than 2 categories the two
halves are identical (degenerate case permitted by §4.2). -/
def hyperCategoricalHyperspace (categories : List PyVal)
    (transform : Option String) : SkDim × SkDim :=
  if categories.length ≤ 1 then
    (⟨SpaceType.CATEGORICAL, Half.full, none, categories, transform⟩,
     ⟨SpaceType.CATEGORICAL, Half.full, none, categories, transform⟩)
  else
    (⟨SpaceType.CATEGORICAL, Half.lowHalf, none,
       categories.take (categories.length / 2), transform⟩,
     ⟨SpaceType.CATEGORICAL, Half.highHalf, none,
       categories.drop (categories.length / 2), transform⟩)

/-- Embedding of `check_dimension` (`mapping_space.py` lines 48-119): dispatch
on the descriptor shape, in the source's branch order.  A `Dimension` instance
is returned unchanged; a non-list is rejected; a length-2 list dispatches on
str/bool, then all-Integral, then any-Real; a length-3 list is REAL when any
of its first two entries is a float/int and the third is "uniform" or
"log-uniform", else CATEGORICAL; longer lists are CATEGORICAL; anything left
(length 0 or 1) is invalid. -/
def check_dimension (dimension : PyDescriptor) (transform : Option String) :
    Except PyError CheckResult :=
  match dimension with
  | .dim d => Except.ok (CheckResult.single d)
  | .scalar => Except.error PyError.notListOrTuple
  | .raw xs =>
    if xs.length = 2 then
      if xs.any isStrOrBool then
        Except.ok (CheckResult.pair (hyperCategoricalHyperspace xs transform).1
          (hyperCategoricalHyperspace xs transform).2)
      else if xs.all isIntegral then
        Except.ok (CheckResult.pair
          (hyperIntegerHyperspace (xs.getD 0 default) (xs.getD 1 default) transform).1
          (hyperIntegerHyperspace (xs.getD 0 default) (xs.getD 1 default) transform).2)
      else if xs.any isRealNumber then
        Except.ok (CheckResult.pair
          (hyperRealHyperspace (xs.getD 0 default) (xs.getD 1 default) none transform).1
          (hyperRealHyperspace (xs.getD 0 default) (xs.getD 1 default) none transform).2)
      else
        Except.error (PyError.invalidDimension xs)
    else if xs.length = 3 then
      if (xs.take 2).any isFloatOrInt &&
          (xs.getD 2 default == PyVal.strV "uniform" ||
           xs.getD 2 default == PyVal.strV "log-uniform") then
        Except.ok (CheckResult.pair
          (hyperRealHyperspace (xs.getD 0 default) (xs.getD 1 default)
            (some (xs.getD 2 default)) transform).1
          (hyperRealHyperspace (xs.getD 0 default) (xs.getD 1 default)
            (some (xs.getD 2 default)) transform).2)
      else
        Except.ok (CheckResult.pair (hyperCategoricalHyperspace xs transform).1
          (hyperCategoricalHyperspace xs transform).2)
    else if 3 < xs.length then
      Except.ok (CheckResult.pair (hyperCategoricalHyperspace xs transform).1
        (hyperCategoricalHyperspace xs transform).2)
    else
      Except.error (PyError.invalidDimension xs)

/-- Embedding of `fold_spaces` (`mapping_space.py` lines 122-156).  The Python
code initializes `2**len(low_spaces)` empty rows and fills row `space` by
`insert(index, ...)` for `index = 0..indices-1`; bit `index` of `space` set
selects `low_spaces[index]`, clear selects `high_spaces[index]`.  The
truthiness test `space & bit_tester` is nonzero-ness of `space &&& (1 <<< index)`. -/
def fold_spaces {α : Type} [Inhabited α] (low_spaces high_spaces : List α) :
    Except PyError (List (List α)) :=
  if low_spaces.length ≠ high_spaces.length then
    Except.error (PyError.lengthMismatch low_spaces.length high_spaces.length)
  else
    let indices := low_spaces.length
    let num_hyperspaces := 2 ^ indices
    Except.ok ((List.range num_hyperspaces).map (fun space =>
      (List.range indices).foldl (fun acc index =>
        acc.insertIdx index
          (if space &&& (1 <<< index) ≠ 0 then low_spaces.getD index default
           else high_spaces.getD index default)) []))

/-- Modelled from the spec: the external `skopt.space.Space` wrapper used by
`create_hyperspace` — per spec §4.4 a thin structural wrapper around a
combination, with no additional transformation. -/
structure Space where
  dimensions : List SkDim
deriving DecidableEq

instance : Inhabited Space := ⟨⟨[]⟩⟩

/-- The tuple unpacking `low, high = check_dimension(hparam)` inside
`create_hyperspace`: a pair unpacks, a bare `Dimension` instance raises a
TypeError (`cannotUnpack`). -/
def unpackPair : CheckResult → Except PyError (SkDim × SkDim)
  | CheckResult.pair low high => Except.ok (low, high)
  | CheckResult.single _ => Except.error PyError.cannotUnpack

/-- The accumulation loop of `create_hyperspace` (lines 173-178): normalize
each descriptor in order, unpack its `(low, high)` pair, and collect the lows
and highs in input order, propagating the first error encountered. -/
def collectHalves : List PyDescriptor → Except PyError (List SkDim × List SkDim)
  | [] => Except.ok ([], [])
  | hparam :: rest => do
    let r ← check_dimension hparam none
    let p ← unpackPair r
    let lh ← collectHalves rest
    Except.ok (p.1 :: lh.1, p.2 :: lh.2)

/-- Embedding of `create_hyperspace` (`mapping_space.py` lines 159-186):
collect per-descriptor low/high halves, fold them, and wrap every combination
in a `Space`. -/
def create_hyperspace (hyperparameters : List PyDescriptor) :
    Except PyError (List Space) := do
  let lh ← collectHalves hyperparameters
  let all_spaces ← fold_spaces lh.1 lh.2
  Except.ok (all_spaces.map (fun space => Space.mk space))

/-- The inner loop of `fold_spaces` inserts at position `index` while `index`
walks `0..n-1` over an initially empty row, so each insertion happens at the
end of the row: the loop builds exactly `[g 0, …, g (n-1)]`. -/
theorem foldl_insertIdx_eq_map {α : Type} (g : Nat → α) (n : Nat) :
    (List.range n).foldl (fun acc index => acc.insertIdx index (g index)) [] =
      (List.range n).map g := by
  induction n with
  | zero => rfl
  | succ n ih =>
    have hl : ((List.range n).map g).length = n := by simp
    have hins := List.insertIdx_length_self ((List.range n).map g) (g n)
    rw [hl] at hins
    rw [List.range_succ, List.foldl_append, List.map_append, ih,
      List.foldl_cons, List.foldl_nil, hins]
    simp

/-- Python's truthiness test `space & (1 << index)` is exactly `Nat.testBit`. -/
theorem and_shiftLeft_ne_zero_iff (space index : Nat) :
    space &&& (1 <<< index) ≠ 0 ↔ space.testBit index = true := by
  rw [Nat.shiftLeft_eq, one_mul, Nat.and_two_pow]
  cases h : space.testBit index <;>
    simp [h, Nat.pos_iff_ne_zero, Nat.pos_pow_of_pos]

/-- The SubSpace that `fold_spaces` builds at row `space`: position `index`
holds the low element when bit `index` of `space` is set, the high element
otherwise. -/
def subSpaceAt {α : Type} [Inhabited α] (low_spaces high_spaces : List α)
    (space : Nat) : List α :=
  (List.range low_spaces.length).map (fun index =>
    if space.testBit index then low_spaces.getD index default
    else high_spaces.getD index default)

/-- Zeta-reduced unfolding of `fold_spaces`. -/
theorem fold_spaces_unfold {α : Type} [Inhabited α]
    (low_spaces high_spaces : List α) :
    fold_spaces low_spaces high_spaces =
      if low_spaces.length ≠ high_spaces.length then
        Except.error (PyError.lengthMismatch low_spaces.length high_spaces.length)
      else
        Except.ok ((List.range (2 ^ low_spaces.length)).map (fun space =>
          (List.range low_spaces.length).foldl (fun acc index =>
            acc.insertIdx index
              (if space &&& (1 <<< index) ≠ 0 then low_spaces.getD index default
               else high_spaces.getD index default)) [])) := rfl

/-- Closed form of `fold_spaces` on equal-length inputs: the row at list
position `space` is `subSpaceAt low_spaces high_spaces space`. -/
theorem fold_spaces_eq_map {α : Type} [Inhabited α]
    (low_spaces high_spaces : List α) (h : low_spaces.length = high_spaces.length) :
    fold_spaces low_spaces high_spaces =
      Except.ok ((List.range (2 ^ low_spaces.length)).map
        (subSpaceAt low_spaces high_spaces)) := by
  rw [fold_spaces_unfold, if_neg (by omega)]
  congr 1
  refine List.map_congr_left ?_
  intro space _
  rw [foldl_insertIdx_eq_map (fun index =>
    if space &&& (1 <<< index) ≠ 0 then low_spaces.getD index default
    else high_spaces.getD index default)]
  refine List.map_congr_left ?_
  intro index _
  by_cases hb : space.testBit index = true
  · rw [if_pos ((and_shiftLeft_ne_zero_iff space index).mpr hb), if_pos hb]
  · rw [if_neg (fun hc => hb ((and_shiftLeft_ne_zero_iff space index).mp hc)),
      if_neg hb]

theorem subSpaceAt_length {α : Type} [Inhabited α]
    (low_spaces high_spaces : List α) (space : Nat) :
    (subSpaceAt low_spaces high_spaces space).length = low_spaces.length := by
  simp [subSpaceAt]

theorem subSpaceAt_getD {α : Type} [Inhabited α]
    (low_spaces high_spaces : List α) (space index : Nat)
    (hi : index < low_spaces.length) :
    (subSpaceAt low_spaces high_spaces space).getD index default =
      if space.testBit index then low_spaces.getD index default
      else high_spaces.getD index default := by
  unfold subSpaceAt
  rw [List.getD_eq_getElem?_getD, List.getElem?_eq_getElem (by simpa using hi)]
  simp

theorem range_map_getD {α : Type} (f : Nat → List α) (n combo : Nat)
    (hc : combo < n) :
    ((List.range n).map f).getD combo [] = f combo := by
  rw [List.getD_eq_getElem?_getD, List.getElem?_eq_getElem (by simpa using hc)]
  simp

/-- C1: for equal-length `lows`/`highs` of length `N` and any `combo < 2^N`,
`fold_spaces` succeeds, returns `2^N` sub-spaces ordered by `combo` ascending
(the sub-space for `combo` sits at list position `combo`), and that sub-space
holds `lows[index]` at every position whose bit is set in `combo` and
`highs[index]` otherwise. -/
theorem fold_spaces_bit_rule {α : Type} [Inhabited α] (lows highs : List α)
    (h : lows.length = highs.length) (combo : Nat)
    (hc : combo < 2 ^ lows.length) (index : Nat) (hi : index < lows.length) :
    ∃ hs, fold_spaces lows highs = Except.ok hs ∧
      hs.length = 2 ^ lows.length ∧
      (hs.getD combo []).getD index default =
        (if combo.testBit index then lows.getD index default
         else highs.getD index default) := by
  refine ⟨_, fold_spaces_eq_map lows highs h, by simp, ?_⟩
  rw [range_map_getD _ _ combo hc, subSpaceAt_getD lows highs combo index hi]

/-- C1 witness. -/
theorem fold_spaces_bit_rule_witness :
    ∃ hs, fold_spaces [10, 20] [30, 40] = Except.ok hs ∧
      hs.length = 2 ^ [10, 20].length ∧
      (hs.getD 1 []).getD 0 default =
        (if Nat.testBit 1 0 then [10, 20].getD 0 default
         else [30, 40].getD 0 default) :=
  fold_spaces_bit_rule [10, 20] [30, 40] (by decide) 1 (by decide) 0 (by decide)

/-- C3: `fold_spaces` on equal-length inputs of length `N ≥ 1` returns exactly
`2^N` sub-spaces, each of length `N`, and when every low element differs from
the high element at the same position, the sub-spaces are pairwise distinct. -/
theorem fold_spaces_count_and_distinct {α : Type} [Inhabited α]
    (lows highs : List α) (hN : 1 ≤ lows.length)
    (h : lows.length = highs.length) :
    ∃ hs, fold_spaces lows highs = Except.ok hs ∧
      hs.length = 2 ^ lows.length ∧
      (∀ sub ∈ hs, sub.length = lows.length) ∧
      ((∀ i, i < lows.length → lows.getD i default ≠ highs.getD i default) →
        hs.Nodup) := by
  refine ⟨_, fold_spaces_eq_map lows highs h, by simp, ?_, ?_⟩
  · intro sub hsub
    rw [List.mem_map] at hsub
    obtain ⟨space, _, rfl⟩ := hsub
    exact subSpaceAt_length lows highs space
  · intro hdist
    refine List.Nodup.map_on ?_ (List.nodup_range _)
    intro x hx y hy hfeq
    rw [List.mem_range] at hx hy
    refine Nat.eq_of_testBit_eq ?_
    intro i
    by_cases hi : i < lows.length
    · have hgd := congrArg (fun l => l.getD i default) hfeq
      simp only [subSpaceAt_getD lows highs _ i hi] at hgd
      by_cases hbx : x.testBit i = true <;> by_cases hby : y.testBit i = true
      · rw [hbx, hby]
      · rw [if_pos hbx, if_neg hby] at hgd
        exact absurd hgd (hdist i hi)
      · rw [if_neg hbx, if_pos hby] at hgd
        exact absurd hgd.symm (hdist i hi)
      · rw [Bool.not_eq_true] at hbx hby
        rw [hbx, hby]
    · have hle : 2 ^ lows.length ≤ 2 ^ i :=
        Nat.pow_le_pow_right (by norm_num) (Nat.le_of_not_lt hi)
      rw [Nat.testBit_lt_two_pow (Nat.lt_of_lt_of_le hx hle),
        Nat.testBit_lt_two_pow (Nat.lt_of_lt_of_le hy hle)]

/-- C3 witness. -/
theorem fold_spaces_count_and_distinct_witness :
    ∃ hs, fold_spaces [10, 20] [30, 40] = Except.ok hs ∧
      hs.length = 2 ^ [10, 20].length ∧
      (∀ sub ∈ hs, sub.length = [10, 20].length) ∧
      ((∀ i, i < [10, 20].length →
          [10, 20].getD i default ≠ [30, 40].getD i default) → hs.Nodup) :=
  fold_spaces_count_and_distinct [10, 20] [30, 40] (by decide) (by decide)

/-- C4: `fold_spaces` raises the length-mismatch error exactly when the two
inputs have different lengths, and any error it raises is that error (so with
equal lengths it never raises). -/
theorem fold_spaces_error_iff {α : Type} [Inhabited α] (lows highs : List α) :
    (fold_spaces lows highs =
        Except.error (PyError.lengthMismatch lows.length highs.length) ↔
      lows.length ≠ highs.length) ∧
    (∀ e, fold_spaces lows highs = Except.error e →
      e = PyError.lengthMismatch lows.length highs.length) := by
  rw [fold_spaces_unfold]
  by_cases h : lows.length = highs.length
  · rw [if_neg (by omega)]
    refine ⟨?_, ?_⟩
    · simp [h]
    · intro e he
      exact absurd he (by simp)
  · rw [if_pos (by omega)]
    refine ⟨?_, ?_⟩
    · simp [h]
    · intro e he
      exact (Except.error.injEq _ _).mp he.symm

/-- C4 witness: length-3 lows with length-2 highs raise the error. -/
theorem fold_spaces_error_iff_witness :
    fold_spaces [1, 2, 3] [4, 5] =
      Except.error (PyError.lengthMismatch [1, 2, 3].length [4, 5].length) :=
  (fold_spaces_error_iff [1, 2, 3] [4, 5]).1.mpr (by decide)

/-- C9: on two empty inputs `fold_spaces` succeeds and returns exactly one
sub-space, the empty one. -/
theorem fold_spaces_nil {α : Type} [Inhabited α] :
    fold_spaces ([] : List α) ([] : List α) = Except.ok [[]] := rfl

/-- C10: every element of every returned sub-space is exactly the input
element `lows[index]` or `highs[index]` at the matching position — the inputs
are shared into the output unchanged (the embedding is pure, matching the
source, which only reads `low_spaces`/`high_spaces`). -/
theorem fold_spaces_shares_inputs {α : Type} [Inhabited α]
    (lows highs : List α) (h : lows.length = highs.length) :
    ∃ hs, fold_spaces lows highs = Except.ok hs ∧
      ∀ sub ∈ hs, sub.length = lows.length ∧
        ∀ index, index < lows.length →
          sub.getD index default = lows.getD index default ∨
          sub.getD index default = highs.getD index default := by
  refine ⟨_, fold_spaces_eq_map lows highs h, ?_⟩
  intro sub hsub
  rw [List.mem_map] at hsub
  obtain ⟨space, _, rfl⟩ := hsub
  refine ⟨subSpaceAt_length lows highs space, ?_⟩
  intro index hi
  rw [subSpaceAt_getD lows highs space index hi]
  by_cases hb : space.testBit index = true
  · exact Or.inl (by rw [if_pos hb])
  · exact Or.inr (by rw [if_neg hb])

/-- C10 witness. -/
theorem fold_spaces_shares_inputs_witness :
    ∃ hs, fold_spaces [10, 20] [30, 40] = Except.ok hs ∧
      ∀ sub ∈ hs, sub.length = [10, 20].length ∧
        ∀ index, index < [10, 20].length →
          sub.getD index default = [10, 20].getD index default ∨
          sub.getD index default = [30, 40].getD index default :=
  fold_spaces_shares_inputs [10, 20] [30, 40] (by decide)

/-- The kinds of the dimensions inside a `check_dimension` result. -/
def resultKinds : Except PyError CheckResult → List SpaceType
  | Except.ok (CheckResult.single d) => [d.kind]
  | Except.ok (CheckResult.pair low high) => [low.kind, high.kind]
  | Except.error _ => []

/-- C6: length-2 descriptor inference precedence.  Any text/boolean element
makes the descriptor CATEGORICAL with the two elements as category set
(split across the two halves); otherwise two integral elements make it
INTEGER; otherwise any real-number element makes it REAL; otherwise
`check_dimension` fails with the invalid-dimension error. -/
theorem check_dimension_len2 (a b : PyVal) (t : Option String) :
    (([a, b].any isStrOrBool) = true →
      ∃ low high,
        check_dimension (PyDescriptor.raw [a, b]) t =
          Except.ok (CheckResult.pair low high) ∧
        low.kind = SpaceType.CATEGORICAL ∧ high.kind = SpaceType.CATEGORICAL ∧
        low.categories ++ high.categories = [a, b]) ∧
    (([a, b].any isStrOrBool) = false → ([a, b].all isIntegral) = true →
      ∃ low high,
        check_dimension (PyDescriptor.raw [a, b]) t =
          Except.ok (CheckResult.pair low high) ∧
        low.kind = SpaceType.INTEGER ∧ high.kind = SpaceType.INTEGER) ∧
    (([a, b].any isStrOrBool) = false → ([a, b].all isIntegral) = false →
      ([a, b].any isRealNumber) = true →
      ∃ low high,
        check_dimension (PyDescriptor.raw [a, b]) t =
          Except.ok (CheckResult.pair low high) ∧
        low.kind = SpaceType.REAL ∧ high.kind = SpaceType.REAL) ∧
    (([a, b].any isStrOrBool) = false → ([a, b].all isIntegral) = false →
      ([a, b].any isRealNumber) = false →
      check_dimension (PyDescriptor.raw [a, b]) t =
        Except.error (PyError.invalidDimension [a, b])) := by
  refine ⟨?_, ?_, ?_, ?_⟩
  · intro h1
    simp only [check_dimension, List.length_cons, List.length_nil]
    rw [if_pos trivial, if_pos h1]
    refine ⟨_, _, rfl, ?_, ?_, ?_⟩ <;> simp [hyperCategoricalHyperspace]
  · intro h1 h2
    simp only [check_dimension, List.length_cons, List.length_nil]
    rw [if_pos trivial, if_neg (by simp [h1]), if_pos h2]
    exact ⟨_, _, rfl, rfl, rfl⟩
  · intro h1 h2 h3
    simp only [check_dimension, List.length_cons, List.length_nil]
    rw [if_pos trivial, if_neg (by simp [h1]), if_neg (by simp [h2]), if_pos h3]
    exact ⟨_, _, rfl, rfl, rfl⟩
  · intro h1 h2 h3
    simp only [check_dimension, List.length_cons, List.length_nil]
    rw [if_pos trivial, if_neg (by simp [h1]), if_neg (by simp [h2]),
      if_neg (by simp [h3])]

/-- C6 witness: (1, 10) → INTEGER, (1.0, 10) → REAL,
(True, False) → CATEGORICAL. -/
theorem check_dimension_len2_witness :
    (∃ low high,
      check_dimension (PyDescriptor.raw [PyVal.intV 1, PyVal.intV 10]) none =
        Except.ok (CheckResult.pair low high) ∧
      low.kind = SpaceType.INTEGER ∧ high.kind = SpaceType.INTEGER) ∧
    (∃ low high,
      check_dimension (PyDescriptor.raw [PyVal.floatV 1.0, PyVal.intV 10]) none =
        Except.ok (CheckResult.pair low high) ∧
      low.kind = SpaceType.REAL ∧ high.kind = SpaceType.REAL) ∧
    (∃ low high,
      check_dimension
          (PyDescriptor.raw [PyVal.boolV true, PyVal.boolV false]) none =
        Except.ok (CheckResult.pair low high) ∧
      low.kind = SpaceType.CATEGORICAL ∧ high.kind = SpaceType.CATEGORICAL ∧
      low.categories ++ high.categories =
        [PyVal.boolV true, PyVal.boolV false]) :=
  ⟨(check_dimension_len2 (PyVal.intV 1) (PyVal.intV 10) none).2.1
      (by decide) (by decide),
   (check_dimension_len2 (PyVal.floatV 1.0) (PyVal.intV 10) none).2.2.1
      (by decide) (by decide) (by decide),
   (check_dimension_len2 (PyVal.boolV true) (PyVal.boolV false) none).1
      (by decide)⟩

/-- C5 (amended): a length-3 descriptor is REAL with the given prior exactly
when AT LEAST ONE of the first two elements is a float/int (Python bools
included) and the third equals "uniform" or "log-uniform"; in every other
length-3 case it is CATEGORICAL with the 3 elements, split order-preservingly
across the two halves, as category set. -/
theorem check_dimension_len3 (xs : List PyVal) (t : Option String)
    (h : xs.length = 3) :
    (((xs.take 2).any isFloatOrInt &&
        (xs.getD 2 default == PyVal.strV "uniform" ||
         xs.getD 2 default == PyVal.strV "log-uniform")) = true →
      ∃ low high, check_dimension (PyDescriptor.raw xs) t =
          Except.ok (CheckResult.pair low high) ∧
        low.kind = SpaceType.REAL ∧ high.kind = SpaceType.REAL ∧
        low.prior = some (xs.getD 2 default) ∧
        high.prior = some (xs.getD 2 default)) ∧
    (((xs.take 2).any isFloatOrInt &&
        (xs.getD 2 default == PyVal.strV "uniform" ||
         xs.getD 2 default == PyVal.strV "log-uniform")) = false →
      ∃ low high, check_dimension (PyDescriptor.raw xs) t =
          Except.ok (CheckResult.pair low high) ∧
        low.kind = SpaceType.CATEGORICAL ∧ high.kind = SpaceType.CATEGORICAL ∧
        low.categories ++ high.categories = xs) := by
  refine ⟨?_, ?_⟩
  · intro hc
    simp only [check_dimension]
    rw [if_neg (by omega), if_pos h, if_pos hc]
    exact ⟨_, _, rfl, rfl, rfl, rfl, rfl⟩
  · intro hc
    simp only [check_dimension]
    rw [if_neg (by omega), if_pos h,
      if_neg (by intro hcc; rw [hcc] at hc; simp at hc)]
    rw [hyperCategoricalHyperspace, if_neg (by omega)]
    exact ⟨_, _, rfl, rfl, rfl, List.take_append_drop _ xs⟩

/-- C5 witness: (0.01, 1.0, "log-uniform") → REAL with log-uniform prior. -/
theorem check_dimension_len3_witness :
    ∃ low high, check_dimension (PyDescriptor.raw
        [PyVal.floatV 0.01, PyVal.floatV 1.0, PyVal.strV "log-uniform"]) none =
        Except.ok (CheckResult.pair low high) ∧
      low.kind = SpaceType.REAL ∧ high.kind = SpaceType.REAL ∧
      low.prior = some ([PyVal.floatV 0.01, PyVal.floatV 1.0,
        PyVal.strV "log-uniform"].getD 2 default) ∧
      high.prior = some ([PyVal.floatV 0.01, PyVal.floatV 1.0,
        PyVal.strV "log-uniform"].getD 2 default) :=
  (check_dimension_len3
    [PyVal.floatV 0.01, PyVal.floatV 1.0, PyVal.strV "log-uniform"] none
    (by decide)).1 (by decide)

/-- C5 counterexample: descriptor ("a", 1, "uniform") has a non-numeric first
element, so under the claim (BOTH of the first two elements numeric) it should
be CATEGORICAL — yet the code infers REAL, because the source tests `any`,
not all, over the first two elements. -/
theorem check_dimension_len3_counterexample :
    isFloatOrInt (PyVal.strV "a") = false ∧
    resultKinds (check_dimension (PyDescriptor.raw
        [PyVal.strV "a", PyVal.intV 1, PyVal.strV "uniform"]) none) =
      [SpaceType.REAL, SpaceType.REAL] ∧
    SpaceType.REAL ≠ SpaceType.CATEGORICAL := by decide

/-- C7: a descriptor that is already a `Dimension` instance passes through
`check_dimension` unchanged, and re-normalizing that output returns it
unchanged again (idempotence), whatever the transform arguments. -/
theorem check_dimension_dim_passthrough (d : SkDim) (t u : Option String) :
    check_dimension (PyDescriptor.dim d) t =
      Except.ok (CheckResult.single d) ∧
    (∀ r, check_dimension (PyDescriptor.dim d) t =
        Except.ok (CheckResult.single r) →
      check_dimension (PyDescriptor.dim r) u =
        Except.ok (CheckResult.single r)) := by
  exact ⟨rfl, fun r _ => rfl⟩

/-- C7 witness. -/
theorem check_dimension_dim_passthrough_witness :
    check_dimension (PyDescriptor.dim default) none =
      Except.ok (CheckResult.single default) :=
  (check_dimension_dim_passthrough default none none).2 default
    (check_dimension_dim_passthrough default none none).1

/-- The end-to-end example descriptors `[(1, 10), (0.01, 1.0, "log-uniform")]`. -/
def c2descriptors : List PyDescriptor :=
  [PyDescriptor.raw [PyVal.intV 1, PyVal.intV 10],
   PyDescriptor.raw [PyVal.floatV 0.01, PyVal.floatV 1.0,
     PyVal.strV "log-uniform"]]

/-- The half used at each position of sub-space `i` of a built hyperspace. -/
def subSpaceHalves (r : Except PyError (List Space)) (i : Nat) : List Half :=
  ((r.toOption.getD []).getD i default).dimensions.map SkDim.half

/-- C2 counterexample: on descriptors [(1,10), (0.01,1.0,"log-uniform")] the
sub-space at index 0 takes the HIGH half at both positions, contradicting the
claim that SubSpace[0] uses the low half at both positions: `fold_spaces`
selects the low half when the bit is SET, and combo 0 has no bits set. -/
theorem create_hyperspace_end_to_end_counterexample :
    subSpaceHalves (create_hyperspace c2descriptors) 0 =
      [Half.highHalf, Half.highHalf] ∧
    Half.highHalf ≠ Half.lowHalf := by decide

/-- C2 (amended): build on [(1,10), (0.01,1.0,"log-uniform")] returns exactly
4 sub-spaces, each a 2-dimension sequence; SubSpace[0] uses the HIGH half at
both positions and SubSpace[3] the LOW half at both positions, matching the
bit-pattern rule of the code (a set bit selects the low half). -/
theorem create_hyperspace_end_to_end :
    (create_hyperspace c2descriptors).toBool = true ∧
    ((create_hyperspace c2descriptors).toOption.getD []).length = 4 ∧
    (∀ s ∈ (create_hyperspace c2descriptors).toOption.getD [],
      s.dimensions.length = 2) ∧
    subSpaceHalves (create_hyperspace c2descriptors) 0 =
      [Half.highHalf, Half.highHalf] ∧
    subSpaceHalves (create_hyperspace c2descriptors) 3 =
      [Half.lowHalf, Half.lowHalf] := by decide

/-- C8 (amended): `create_hyperspace` fails on the first invalid descriptor
with exactly the normalizer's error for that descriptor — descriptors after
it are never consulted, so they cannot change the outcome; the error carries
the offending descriptor (for unrecognized list shapes) but not its position
in the input sequence. -/
theorem create_hyperspace_fail_fast (pre : List PyDescriptor)
    (bad : PyDescriptor) (post : List PyDescriptor) (e : PyError)
    (hpre : ∀ d ∈ pre, ∃ low high,
      check_dimension d none = Except.ok (CheckResult.pair low high))
    (hbad : check_dimension bad none = Except.error e) :
    create_hyperspace (pre ++ bad :: post) = Except.error e := by
  have hcol : collectHalves (pre ++ bad :: post) = Except.error e := by
    induction pre with
    | nil =>
      simp only [List.nil_append, collectHalves, hbad]
      rfl
    | cons d ds ih =>
      obtain ⟨low, high, hdeq⟩ := hpre d (List.mem_cons_self d ds)
      have ih2 := ih (fun x hx => hpre x (List.mem_cons_of_mem d hx))
      simp only [List.cons_append, collectHalves, hdeq, List.append_eq, ih2]
      rfl
  simp only [create_hyperspace, hcol]
  rfl

/-- C8 witness: the invalid empty descriptor at position 1 aborts the build
with the normalizer's error, with a further descriptor behind it. -/
theorem create_hyperspace_fail_fast_witness :
    create_hyperspace [PyDescriptor.raw [PyVal.intV 1, PyVal.intV 10],
        PyDescriptor.raw [], PyDescriptor.raw [PyVal.intV 5, PyVal.intV 6]] =
      Except.error (PyError.invalidDimension []) :=
  create_hyperspace_fail_fast
    [PyDescriptor.raw [PyVal.intV 1, PyVal.intV 10]]
    (PyDescriptor.raw []) [PyDescriptor.raw [PyVal.intV 5, PyVal.intV 6]]
    (PyError.invalidDimension [])
    (by
      intro d hd
      rw [List.mem_singleton] at hd
      subst hd
      exact ⟨_, _, rfl⟩)
    rfl

/-- C8 counterexample: the same invalid descriptor at position 0 and at
position 1 produces the *identical* error value, so the propagated error does
not include the offending position. -/
theorem create_hyperspace_no_position_counterexample :
    create_hyperspace [PyDescriptor.raw []] =
      Except.error (PyError.invalidDimension []) ∧
    create_hyperspace [PyDescriptor.raw [PyVal.intV 1, PyVal.intV 10],
        PyDescriptor.raw []] =
      Except.error (PyError.invalidDimension []) := by
  exact ⟨rfl, rfl⟩

end HyperSpace
